import Mathlib

/-!
Verification of the weather-lookup widget (single source file `src/App.jsx`).
The embedding models the three functions of the source — `convertTemp`,
`fetchWeather` and `getWeather` — together with the React state they read
and write (`city`, `weather`, `error`, `unit`).  JavaScript `undefined`
is modelled by `Option`, JS numbers by `ℚ` (all arithmetic in the source
is exact on the values of interest), a thrown JS error by
`Except.error` carrying the error message string, and the browser
environment (hostname check, `process.env`, network responses) by
explicit input structures.
-/

namespace WeatherApp

/-- Truthiness of an optional JS string: `undefined` and `""` are falsy. -/
def strTruthy : Option String → Bool
  | none => false
  | some s => s != ""

/-- JS `a || b` for two string-or-undefined values. -/
def jsOrString (a b : Option String) : Option String :=
  if strTruthy a then a else b

/-- JS `text || statusText` where `text` may be `null` (modelled `none`). -/
def jsOrText (text : Option String) (statusText : String) : String :=
  match text with
  | some s => if s = "" then statusText else s
  | none => statusText

/-- White space characters recognised by JS `String.prototype.trim`
(ECMAScript WhiteSpace and LineTerminator code points). -/
def jsIsWhitespace (c : Char) : Bool :=
  let n := c.val.toNat
  (9 ≤ n && n ≤ 13) || n = 32 || n = 160 || n = 5760 ||
    (8192 ≤ n && n ≤ 8202) || n = 8232 || n = 8233 || n = 8239 ||
    n = 8287 || n = 12288 || n = 65279

/-- JS `city.trim()`: strip leading and trailing white space. -/
def jsTrim (s : String) : String :=
  String.mk (((s.data.dropWhile jsIsWhitespace).reverse.dropWhile jsIsWhitespace).reverse)

/-- Execution environment of the page: the hostname test
`window.location.hostname === "localhost" || === "127.0.0.1"` collapses
to the boolean `isLocal`; the two recognised `process.env` variables are
carried as optional strings. -/
structure Env where
  isLocal : Bool
  reactAppWeatherApiKey : Option String
  viteWeatherApiKey : Option String
deriving DecidableEq, Repr

/-- One element of the OpenWeather `weather` array. -/
structure WeatherListItem where
  description : Option String
  icon : Option String
deriving DecidableEq, Repr

/-- The OpenWeather `main` object. -/
structure MainSection where
  temp : Option ℚ
  humidity : Option ℚ
deriving DecidableEq, Repr

/-- The OpenWeather `wind` object. -/
structure WindSection where
  speed : Option ℚ
deriving DecidableEq, Repr

/-- Parsed body of a direct OpenWeather API response; every field the
source dereferences may be absent. -/
structure OpenWeatherBody where
  name : Option String
  main : Option MainSection
  wind : Option WindSection
  weather : Option (List WeatherListItem)
deriving DecidableEq, Repr

/-- The normalized payload shape the app works with: the six weather
fields plus the optional `error` marker a backend body may carry
(`error` records presence and truthiness of that field). -/
structure Payload where
  city : Option String
  temp : Option ℚ
  humidity : Option ℚ
  wind : Option ℚ
  condition : Option String
  icon : Option String
  error : Option Bool
deriving DecidableEq, Repr

/-- HTTP response of the local backend: a status, and the JSON parse of
the body (`none` when `res.json()` would reject). -/
structure HttpLocalResponse where
  status : Nat
  jsonBody : Option Payload
deriving DecidableEq, Repr

/-- HTTP response of the direct OpenWeather call: status, `statusText`,
the result of `res.text()` (`none` models the `.catch(() => null)`
branch), and the JSON parse of the body. -/
structure HttpApiResponse where
  status : Nat
  statusText : String
  textBody : Option String
  jsonBody : Option OpenWeatherBody
deriving DecidableEq, Repr

/-- Behaviour of the network for one invocation: either transport fails
(`fetch` rejects) or the given response arrives, on each of the two
possible endpoints. -/
structure Network where
  localRejects : Bool
  localResponse : HttpLocalResponse
  apiRejects : Bool
  apiResponse : HttpApiResponse
deriving DecidableEq, Repr

/-- The `res.ok` flag of the Fetch API: status in the 2xx range. -/
def resOk (status : Nat) : Bool := 200 ≤ status && status < 300

/-- An outbound HTTP GET request issued by `fetchWeather`, identified by
endpoint and the parameters interpolated into its URL. -/
inductive Request where
  | localBackend (city : String)
  | openWeather (city : String) (apiKey : String)
deriving DecidableEq, Repr

/-- Error message built by the source for a non-ok direct-API response:
`OpenWeather error: STATUS (text or statusText)`. -/
def openWeatherErrorMessage (status : Nat) (text : Option String) (statusText : String) : String :=
  "OpenWeather error: " ++ toString status ++ " " ++ jsOrText text statusText

/-- Field remapping of a direct OpenWeather body into the normalized
payload, with JS optional chaining rendered as `Option.bind`. -/
def normalizeBody (data : OpenWeatherBody) : Payload :=
  { city := data.name
    temp := data.main.bind MainSection.temp
    humidity := data.main.bind MainSection.humidity
    wind := data.wind.bind WindSection.speed
    condition := (data.weather.bind List.head?).bind WeatherListItem.description
    icon := (data.weather.bind List.head?).bind WeatherListItem.icon
    error := none }

/-- `fetchWeather(city)` of the source: picks an endpoint from the
environment, performs at most one request, and either resolves with a
payload or rejects with an error message.  The second component lists
the outbound requests actually issued. -/
def fetchWeather (env : Env) (net : Network) (city : String) :
    Except String Payload × List Request :=
  if env.isLocal then
    let req := Request.localBackend city
    if net.localRejects then (Except.error "TypeError: Failed to fetch", [req])
    else if resOk net.localResponse.status then
      match net.localResponse.jsonBody with
      | some data => (Except.ok data, [req])
      | none => (Except.error "SyntaxError: invalid JSON", [req])
    else (Except.error "Local backend error", [req])
  else
    match jsOrString env.reactAppWeatherApiKey env.viteWeatherApiKey with
    | none => (Except.error "WEATHER API key missing in environment", [])
    | some k =>
      if k = "" then (Except.error "WEATHER API key missing in environment", [])
      else
        let req := Request.openWeather city k
        if net.apiRejects then (Except.error "TypeError: Failed to fetch", [req])
        else if resOk net.apiResponse.status then
          match net.apiResponse.jsonBody with
          | some data => (Except.ok (normalizeBody data), [req])
          | none => (Except.error "SyntaxError: invalid JSON", [req])
        else
          (Except.error (openWeatherErrorMessage net.apiResponse.status
            net.apiResponse.textBody net.apiResponse.statusText), [req])

/-- The two-valued unit preference of the UI. -/
inductive TempUnit where
  | C
  | F
deriving DecidableEq, Repr

/-- The four React state variables of the component. -/
structure UIState where
  city : String
  weather : Option Payload
  error : String
  unit : TempUnit
deriving DecidableEq, Repr

/-- `convertTemp` of the source: identity for Celsius, `(t * 9) / 5 + 32`
for Fahrenheit. -/
def convertTemp (unit : TempUnit) (tempC : ℚ) : ℚ :=
  if unit = TempUnit.C then tempC else tempC * 9 / 5 + 32

/-- The `setUnit` state setter wired to the °C/°F toggle buttons. -/
def setUnit (u : TempUnit) (s : UIState) : UIState :=
  { s with unit := u }

/-- Truthiness of `data.error` on a payload. -/
def dataError (p : Payload) : Bool := p.error.getD false

/-- Result of one run of `getWeather`: the updated UI state, the
outbound requests issued, and whether `fetchWeather` was invoked. -/
structure GetWeatherOutcome where
  state : UIState
  requests : List Request
  fetchInvoked : Bool
deriving DecidableEq, Repr

/-- `getWeather` of the source: bail out on blank input, otherwise fetch
and fold the outcome into the `weather`/`error` state pair. -/
def getWeather (env : Env) (net : Network) (s : UIState) : GetWeatherOutcome :=
  if jsTrim s.city = "" then ⟨s, [], false⟩
  else
    let r := fetchWeather env net s.city
    match r.1 with
    | Except.ok data =>
      if dataError data then
        ⟨{ s with error := "City not found", weather := none }, r.2, true⟩
      else
        ⟨{ s with weather := some data, error := "" }, r.2, true⟩
    | Except.error _ =>
      ⟨{ s with error := "Server Error", weather := none }, r.2, true⟩

/-- A payload with all six weather fields present. -/
def fullyPopulated (p : Payload) : Prop :=
  p.city.isSome ∧ p.temp.isSome ∧ p.humidity.isSome ∧
    p.wind.isSome ∧ p.condition.isSome ∧ p.icon.isSome

end WeatherApp

namespace WeatherApp

/-! Concrete fixtures used by witnesses and counterexamples. -/

/-- Development environment: hostname is localhost. -/
def devEnv : Env := ⟨true, none, none⟩

/-- Production environment holding an API key. -/
def prodEnv : Env := ⟨false, some "abc123", none⟩

/-- A payload none of whose fields are present. -/
def blankPayload : Payload := ⟨none, none, none, none, none, none, none⟩

/-- A fully populated payload as the local backend would return it. -/
def londonPayload : Payload :=
  ⟨some "London", some 15, some 70, some 3, some "clouds", some "04d", none⟩

/-- A local-backend body carrying a truthy `error` marker. -/
def notFoundPayload : Payload := ⟨none, none, none, none, none, none, some true⟩

/-- An OpenWeather body with every remapped field present. -/
def fullBody : OpenWeatherBody :=
  ⟨some "London", some ⟨some 20, some 70⟩, some ⟨some 3⟩, some [⟨some "clear sky", some "01d"⟩]⟩

/-- An OpenWeather body with every field absent. -/
def emptyBody : OpenWeatherBody := ⟨none, none, none, none⟩

/-- An OpenWeather body whose `weather` array is missing. -/
def noWeatherBody : OpenWeatherBody :=
  ⟨some "London", some ⟨some 20, some 70⟩, some ⟨some 3⟩, none⟩

/-- An API response that is never consulted in local mode. -/
def apiIdle : HttpApiResponse := ⟨200, "OK", none, none⟩

/-- A network whose local backend answers with the given response. -/
def netLocal (r : HttpLocalResponse) : Network := ⟨false, r, false, apiIdle⟩

/-- A network whose direct API answers with the given response. -/
def netApi (r : HttpApiResponse) : Network := ⟨false, ⟨200, none⟩, false, r⟩

/-- A 200 direct-API response with the given body. -/
def okApi (b : OpenWeatherBody) : HttpApiResponse := ⟨200, "OK", none, some b⟩

/-- A UI state about to search for the given city text. -/
def stateWith (c : String) : UIState := ⟨c, none, "", TempUnit.C⟩

/-- A string all of whose characters are JS white space trims to the
empty string. -/
theorem jsTrim_of_all_whitespace (s : String)
    (h : ∀ c ∈ s.data, jsIsWhitespace c = true) : jsTrim s = "" := by
  have h1 : s.data.dropWhile jsIsWhitespace = [] := List.dropWhile_eq_nil_iff.mpr h
  simp [jsTrim, h1]

/-- Claim C2: in production mode, if the API key is absent from the
process configuration, fetchWeather fails with the configuration error
message before issuing any network request (zero outbound calls). -/
theorem C2_missing_key_fails_before_network (env : Env) (net : Network) (city : String)
    (hlocal : env.isLocal = false)
    (h1 : env.reactAppWeatherApiKey = none)
    (h2 : env.viteWeatherApiKey = none) :
    (fetchWeather env net city).1 = Except.error "WEATHER API key missing in environment" ∧
      (fetchWeather env net city).2 = [] := by
  constructor <;> simp [fetchWeather, hlocal, h1, h2, jsOrString, strTruthy]

/-- Witness for C2 at a concrete production environment with no key. -/
theorem C2_missing_key_fails_before_network_witness :
    (fetchWeather ⟨false, none, none⟩ (netApi (okApi fullBody)) "London").1 =
        Except.error "WEATHER API key missing in environment" ∧
      (fetchWeather ⟨false, none, none⟩ (netApi (okApi fullBody)) "London").2 = [] :=
  C2_missing_key_fails_before_network ⟨false, none, none⟩ (netApi (okApi fullBody)) "London"
    rfl rfl rfl

/-- Claim C7: the unit toggle is a pure display transform: Fahrenheit
display of stored 0 is 32 and of stored 100 is 212, Celsius display is
the identity, and toggling the unit twice leaves the stored weather
record (hence the stored temperature), city text and error unchanged. -/
theorem C7_unit_toggle_pure_display :
    convertTemp TempUnit.F 0 = 32 ∧ convertTemp TempUnit.F 100 = 212 ∧
      (∀ t : ℚ, convertTemp TempUnit.C t = t) ∧
      (∀ (s : UIState) (u v : TempUnit),
        (setUnit v (setUnit u s)).weather = s.weather ∧
          (setUnit v (setUnit u s)).city = s.city ∧
          (setUnit v (setUnit u s)).error = s.error) := by
  refine ⟨?_, ?_, ?_, ?_⟩
  · simp only [convertTemp, reduceCtorEq, if_false]; norm_num
  · simp only [convertTemp, reduceCtorEq, if_false]; norm_num
  · intro t; simp [convertTemp]
  · intro s u v; exact ⟨rfl, rfl, rfl⟩

/-- Claim C8: a city input that is empty or all white space never
triggers a network call: getWeather issues no request and never invokes
fetchWeather. -/
theorem C8_blank_input_no_network (env : Env) (net : Network) (s : UIState)
    (h : ∀ c ∈ s.city.data, jsIsWhitespace c = true) :
    (getWeather env net s).requests = [] ∧ (getWeather env net s).fetchInvoked = false := by
  have ht := jsTrim_of_all_whitespace s.city h
  constructor <;> simp [getWeather, ht]

/-- Witness for C8 at a concrete all-whitespace input. -/
theorem C8_blank_input_no_network_witness :
    (getWeather devEnv (netLocal ⟨200, some londonPayload⟩) (stateWith "   ")).requests = [] ∧
      (getWeather devEnv (netLocal ⟨200, some londonPayload⟩) (stateWith "   ")).fetchInvoked = false :=
  C8_blank_input_no_network devEnv (netLocal ⟨200, some londonPayload⟩) (stateWith "   ")
    (by decide)

/-- Claim C10: on empty or whitespace-only input, getWeather leaves the
whole UI state (record, error, unit, city text) unchanged. -/
theorem C10_blank_input_state_unchanged (env : Env) (net : Network) (s : UIState)
    (h : ∀ c ∈ s.city.data, jsIsWhitespace c = true) :
    (getWeather env net s).state = s := by
  have ht := jsTrim_of_all_whitespace s.city h
  simp [getWeather, ht]

/-- Witness for C10 at the empty city input. -/
theorem C10_blank_input_state_unchanged_witness :
    (getWeather prodEnv (netApi (okApi fullBody))
        ⟨"", some londonPayload, "old", TempUnit.F⟩).state =
      ⟨"", some londonPayload, "old", TempUnit.F⟩ :=
  C10_blank_input_state_unchanged prodEnv (netApi (okApi fullBody))
    ⟨"", some londonPayload, "old", TempUnit.F⟩ (by decide)

end WeatherApp

namespace WeatherApp

/-- Counterexample to claim C1 as stated: for the non-empty city
"London", a successful direct-API fetch of a body with all provider
fields absent resolves with a payload none of whose six fields is
populated — a partial record reaches the caller. -/
theorem C1_counterexample :
    "London" ≠ "" ∧
      (fetchWeather prodEnv (netApi (okApi emptyBody)) "London").1 =
        Except.ok (normalizeBody emptyBody) ∧
      ¬ fullyPopulated (normalizeBody emptyBody) := by
  refine ⟨by decide, by rfl, ?_⟩
  simp [fullyPopulated, normalizeBody, emptyBody]

/-- Claim C1 as amended: every successful direct-API fetch — for any
response body whatsoever — returns exactly the normalization of that
body, in which each field is absent precisely when the provider omits
the corresponding source field; the record is fully populated whenever
the body supplies every remapped field (name, main.temp, main.humidity,
wind.speed, and a first weather element with description and icon), and
partial records can be returned otherwise. -/
theorem C1_success_returns_normalization (env : Env) (net : Network)
    (city k : String) (body : OpenWeatherBody)
    (hlocal : env.isLocal = false)
    (hkey : jsOrString env.reactAppWeatherApiKey env.viteWeatherApiKey = some k)
    (hk : k ≠ "")
    (hrej : net.apiRejects = false)
    (hok : resOk net.apiResponse.status = true)
    (hjson : net.apiResponse.jsonBody = some body) :
    (fetchWeather env net city).1 = Except.ok (normalizeBody body) ∧
      (∀ (nm d ic : String) (t hu w : ℚ) (rest : List WeatherListItem),
        body = ⟨some nm, some ⟨some t, some hu⟩, some ⟨some w⟩,
          some (⟨some d, some ic⟩ :: rest)⟩ →
        fullyPopulated (normalizeBody body)) := by
  constructor
  · simp [fetchWeather, hlocal, hkey, hk, hrej, hok, hjson]
  · intro nm d ic t hu w rest hbody
    subst hbody
    simp [fullyPopulated, normalizeBody]

/-- Witness for the amended C1: the partially-missing body without a
`weather` array still resolves to exactly its normalization, and the
complete body resolves fully populated. -/
theorem C1_success_returns_normalization_witness :
    (fetchWeather prodEnv (netApi (okApi noWeatherBody)) "London").1 =
        Except.ok (normalizeBody noWeatherBody) ∧
      fullyPopulated (normalizeBody fullBody) :=
  ⟨(C1_success_returns_normalization prodEnv (netApi (okApi noWeatherBody)) "London" "abc123"
      noWeatherBody rfl rfl (by decide) rfl rfl rfl).1,
    (C1_success_returns_normalization prodEnv (netApi (okApi fullBody)) "London" "abc123"
      fullBody rfl rfl (by decide) rfl rfl rfl).2
      "London" "clear sky" "01d" 20 70 3 [] rfl⟩

/-- Counterexample to claim C3 as stated: on the local-backend path a
non-success status rejects with the constant message "Local backend
error" — statuses 500 and 503 produce identical errors, so the error
captures neither the HTTP status code nor the response body text. -/
theorem C3_counterexample :
    (fetchWeather devEnv (netLocal ⟨500, some blankPayload⟩) "Paris").1 =
        Except.error "Local backend error" ∧
      (fetchWeather devEnv (netLocal ⟨503, some blankPayload⟩) "Paris").1 =
        Except.error "Local backend error" := by
  constructor <;> rfl

/-- Claim C3 as amended: a non-success HTTP status on the direct-API
path rejects with a message capturing the status code and best-effort
body text; on the local-backend path it rejects with the fixed message
"Local backend error" that carries neither status nor body. -/
theorem C3_remote_error_messages (env : Env) (net : Network) (city k : String) :
    (env.isLocal = true → net.localRejects = false →
        resOk net.localResponse.status = false →
        (fetchWeather env net city).1 = Except.error "Local backend error") ∧
      (env.isLocal = false →
        jsOrString env.reactAppWeatherApiKey env.viteWeatherApiKey = some k →
        k ≠ "" → net.apiRejects = false →
        resOk net.apiResponse.status = false →
        (fetchWeather env net city).1 = Except.error
          (openWeatherErrorMessage net.apiResponse.status
            net.apiResponse.textBody net.apiResponse.statusText)) := by
  constructor
  · intro hlocal hrej hok
    simp [fetchWeather, hlocal, hrej, hok]
  · intro hlocal hkey hk hrej hok
    simp [fetchWeather, hlocal, hkey, hk, hrej, hok]

/-- Witness for the amended C3: a 404 on each path at concrete inputs. -/
theorem C3_remote_error_messages_witness :
    (fetchWeather devEnv (netLocal ⟨404, none⟩) "Paris").1 =
        Except.error "Local backend error" ∧
      (fetchWeather prodEnv (netApi ⟨404, "Not Found", some "city not found", none⟩) "Paris").1 =
        Except.error (openWeatherErrorMessage 404 (some "city not found") "Not Found") :=
  ⟨(C3_remote_error_messages devEnv (netLocal ⟨404, none⟩) "Paris" "abc123").1 rfl rfl rfl,
    (C3_remote_error_messages prodEnv (netApi ⟨404, "Not Found", some "city not found", none⟩)
      "Paris" "abc123").2 rfl rfl (by decide) rfl rfl⟩

end WeatherApp

namespace WeatherApp

/-- Claim C4: on a non-blank search, a resolved payload carrying a
truthy error marker yields the "City not found" message with the record
cleared, every rejection yields "Server Error" with the record cleared,
and the resulting error message is always one of "" (success),
"City not found", or "Server Error". -/
theorem C4_two_failure_messages (env : Env) (net : Network) (s : UIState)
    (hcity : jsTrim s.city ≠ "") :
    (∀ p, (fetchWeather env net s.city).1 = Except.ok p → dataError p = true →
        (getWeather env net s).state.error = "City not found" ∧
          (getWeather env net s).state.weather = none) ∧
      (∀ m, (fetchWeather env net s.city).1 = Except.error m →
        (getWeather env net s).state.error = "Server Error" ∧
          (getWeather env net s).state.weather = none) ∧
      ((getWeather env net s).state.error = "" ∨
        (getWeather env net s).state.error = "City not found" ∨
        (getWeather env net s).state.error = "Server Error") := by
  refine ⟨?_, ?_, ?_⟩
  · intro p hp hde
    constructor <;> simp [getWeather, hcity, hp, hde]
  · intro m hm
    constructor <;> simp [getWeather, hcity, hm]
  · cases hr : (fetchWeather env net s.city).1 with
    | ok p =>
      by_cases he : dataError p = true
      · right; left; simp [getWeather, hcity, hr, he]
      · left; simp [getWeather, hcity, hr, he]
    | error m =>
      right; right; simp [getWeather, hcity, hr]

/-- Witness for C4 at a local backend answering with a truthy error
marker: the user sees "City not found" and no record. -/
theorem C4_two_failure_messages_witness :
    (getWeather devEnv (netLocal ⟨200, some notFoundPayload⟩) (stateWith "Atlantis")).state.error =
        "City not found" ∧
      (getWeather devEnv (netLocal ⟨200, some notFoundPayload⟩) (stateWith "Atlantis")).state.weather =
        none :=
  (C4_two_failure_messages devEnv (netLocal ⟨200, some notFoundPayload⟩) (stateWith "Atlantis")
    (by decide)).1 notFoundPayload rfl rfl

/-- Claim C5: a direct-API response whose `weather` array is missing
still resolves successfully, with the condition and icon fields absent
rather than an exception being raised. -/
theorem C5_missing_weather_array_safe (env : Env) (net : Network) (city k : String)
    (body : OpenWeatherBody)
    (hlocal : env.isLocal = false)
    (hkey : jsOrString env.reactAppWeatherApiKey env.viteWeatherApiKey = some k)
    (hk : k ≠ "")
    (hrej : net.apiRejects = false)
    (hok : resOk net.apiResponse.status = true)
    (hjson : net.apiResponse.jsonBody = some body)
    (hw : body.weather = none) :
    (fetchWeather env net city).1 = Except.ok (normalizeBody body) ∧
      (normalizeBody body).condition = none ∧ (normalizeBody body).icon = none := by
  refine ⟨?_, ?_, ?_⟩
  · simp [fetchWeather, hlocal, hkey, hk, hrej, hok, hjson]
  · simp [normalizeBody, hw]
  · simp [normalizeBody, hw]

/-- Witness for C5 at a concrete body missing its `weather` array. -/
theorem C5_missing_weather_array_safe_witness :
    (fetchWeather prodEnv (netApi (okApi noWeatherBody)) "London").1 =
        Except.ok (normalizeBody noWeatherBody) ∧
      (normalizeBody noWeatherBody).condition = none ∧
      (normalizeBody noWeatherBody).icon = none :=
  C5_missing_weather_array_safe prodEnv (netApi (okApi noWeatherBody)) "London" "abc123"
    noWeatherBody rfl rfl (by decide) rfl rfl rfl rfl

/-- Claim C6: normalization passes the provider temperature through
unchanged: whenever `main.temp` is present with value t, the successful
result's temp field is exactly t (no unit conversion). -/
theorem C6_temperature_passthrough (env : Env) (net : Network) (city k : String)
    (body : OpenWeatherBody) (m : MainSection) (t : ℚ)
    (hlocal : env.isLocal = false)
    (hkey : jsOrString env.reactAppWeatherApiKey env.viteWeatherApiKey = some k)
    (hk : k ≠ "")
    (hrej : net.apiRejects = false)
    (hok : resOk net.apiResponse.status = true)
    (hjson : net.apiResponse.jsonBody = some body)
    (hmain : body.main = some m)
    (ht : m.temp = some t) :
    (fetchWeather env net city).1 = Except.ok (normalizeBody body) ∧
      (normalizeBody body).temp = some t := by
  constructor
  · simp [fetchWeather, hlocal, hkey, hk, hrej, hok, hjson]
  · simp [normalizeBody, hmain, ht]

/-- Witness for C6: a provider body with `main.temp = 20` normalizes to
temperature 20. -/
theorem C6_temperature_passthrough_witness :
    (fetchWeather prodEnv (netApi (okApi fullBody)) "London").1 =
        Except.ok (normalizeBody fullBody) ∧
      (normalizeBody fullBody).temp = some 20 :=
  C6_temperature_passthrough prodEnv (netApi (okApi fullBody)) "London" "abc123"
    fullBody ⟨some 20, some 70⟩ 20 rfl rfl (by decide) rfl rfl rfl rfl rfl

/-- Claim C9: after every run of getWeather that actually fetched, a
successful payload without error marker replaces the record and clears
the error; every failed fetch — a resolved payload carrying a truthy
error marker as well as any rejection — clears the record to none and
sets a non-empty error; consequently a held record and a non-empty
error never coexist. -/
theorem C9_record_lifecycle (env : Env) (net : Network) (s : UIState)
    (h : (getWeather env net s).fetchInvoked = true) :
    (∀ p, (fetchWeather env net s.city).1 = Except.ok p → dataError p = false →
        (getWeather env net s).state.weather = some p ∧
          (getWeather env net s).state.error = "") ∧
      (∀ p, (fetchWeather env net s.city).1 = Except.ok p → dataError p = true →
        (getWeather env net s).state.weather = none ∧
          (getWeather env net s).state.error ≠ "") ∧
      (∀ m, (fetchWeather env net s.city).1 = Except.error m →
        (getWeather env net s).state.weather = none ∧
          (getWeather env net s).state.error ≠ "") ∧
      (((∃ p, (getWeather env net s).state.weather = some p) ∧
          (getWeather env net s).state.error = "") ∨
        ((getWeather env net s).state.weather = none ∧
          (getWeather env net s).state.error ≠ "")) := by
  by_cases hcity : jsTrim s.city = ""
  · simp [getWeather, hcity] at h
  · refine ⟨?_, ?_, ?_, ?_⟩
    · intro p hp hde
      constructor <;> simp [getWeather, hcity, hp, hde]
    · intro p hp hde
      constructor <;> simp [getWeather, hcity, hp, hde]
    · intro m hm
      constructor <;> simp [getWeather, hcity, hm]
    · cases hr : (fetchWeather env net s.city).1 with
      | ok p =>
        by_cases he : dataError p = true
        · right; constructor <;> simp [getWeather, hcity, hr, he]
        · left
          refine ⟨⟨p, ?_⟩, ?_⟩ <;> simp [getWeather, hcity, hr, he]
      | error m =>
        right; constructor <;> simp [getWeather, hcity, hr]

/-- Witness for C9 at a successful local fetch: the new record is held
and the error is cleared. -/
theorem C9_record_lifecycle_witness :
    (getWeather devEnv (netLocal ⟨200, some londonPayload⟩)
        (stateWith "London")).state.weather = some londonPayload ∧
      (getWeather devEnv (netLocal ⟨200, some londonPayload⟩)
        (stateWith "London")).state.error = "" :=
  (C9_record_lifecycle devEnv (netLocal ⟨200, some londonPayload⟩) (stateWith "London")
    rfl).1 londonPayload rfl rfl

end WeatherApp
